import Mathlib

/-!
Shallow embedding of the safepod authentication and session-token subsystem
(`app/services/auth_service.py` over the persistence boundary of
`app/services/supabase_client.py`), together with theorems settling the
specification claims about it.

Conventions of the embedding:
  * Python strings are Lean `String`s; `str.split(sep)` for a one-character
    separator is `pySplit`.
  * `datetime` values are the record `PyDatetime`; `isoformat` /
    `fromisoformat` follow the stdlib's naive-datetime text format
    `YYYY-MM-DDTHH:MM:SS[.ffffff]`.
  * Calls that can raise are `Except String`; a Python `try/except` block
    becomes a `match` that converts `.error` to the handler's result.
  * The remote database reached through the supabase client is the record
    `World`: its tables plus outcome oracles for each remote call (a call
    either behaves per its query semantics or raises the modelled message).
  * Randomness (session ids, bcrypt salts) and the wall clock enter as
    explicit arguments; SHA-256 and the bcrypt core digest are opaque
    function parameters carried in `Ctx`, since equality of their inputs is
    all the code under verification relies on.
  * Each service-layer function also returns the list of persistence
    operations (`DBOp`) it performed, in order, so that effect/frame claims
    are statable.
-/

/-- Model of Python `str.split(c)` for a single-character separator `c`,
acting on the character list of the string: splitting on every occurrence,
keeping empty pieces, `[""]` on the empty string. -/
def splitOnChar (c : Char) : List Char → List (List Char)
  | [] => [[]]
  | x :: xs =>
    match splitOnChar c xs with
    | [] => [[]]
    | h :: t => if x = c then [] :: h :: t else (x :: h) :: t

/-- Python `s.split(c)` for a one-character separator. -/
def pySplit (c : Char) (s : String) : List String :=
  (splitOnChar c s.data).map String.mk

/-- Naive (timezone-free) Python `datetime.datetime`, as produced by
`datetime.utcnow()`. -/
structure PyDatetime where
  year : Nat
  month : Nat
  day : Nat
  hour : Nat
  minute : Nat
  second : Nat
  microsecond : Nat
deriving DecidableEq, Repr

/-- Decimal rendering of `n` left-padded with zeros to width `w`. -/
def padNum (w : Nat) (n : Nat) : String :=
  let s := toString n
  String.mk (List.replicate (w - s.length) '0') ++ s

/-- Modelled from the Python stdlib (not under src/): `datetime.isoformat()`
on a naive datetime renders `YYYY-MM-DDTHH:MM:SS`, appending `.ffffff`
(six digits) exactly when the microsecond field is nonzero. -/
def PyDatetime.isoformat (d : PyDatetime) : String :=
  padNum 4 d.year ++ "-" ++ padNum 2 d.month ++ "-" ++ padNum 2 d.day ++ "T" ++
  padNum 2 d.hour ++ ":" ++ padNum 2 d.minute ++ ":" ++ padNum 2 d.second ++
  (if d.microsecond = 0 then "" else "." ++ padNum 6 d.microsecond)

/-- Value of a list of decimal digit characters. -/
def digitsToNat (l : List Char) : Nat :=
  l.foldl (fun n c => n * 10 + (c.toNat - '0'.toNat)) 0

/-- Fixed-width decimal field: exactly `w` digits. -/
def parseFixedNat (w : Nat) (s : String) : Option Nat :=
  if s.length = w ∧ s.data.all Char.isDigit then some (digitsToNat s.data) else none

/-- Whether `y` is a Gregorian leap year. -/
def isLeapYear (y : Nat) : Bool :=
  y % 4 = 0 && (y % 100 ≠ 0 || y % 400 = 0)

/-- Number of days in month `m` of year `y`. -/
def daysInMonth (y m : Nat) : Nat :=
  if m = 2 then (if isLeapYear y then 29 else 28)
  else if m = 4 ∨ m = 6 ∨ m = 9 ∨ m = 11 then 30
  else 31

/-- Seconds field of an ISO time, optionally with a fractional part of three
or six digits, returning (second, microsecond). -/
def parseSeconds (s : String) : Option (Nat × Nat) :=
  match pySplit '.' s with
  | [ss] => (parseFixedNat 2 ss).map (fun sec => (sec, 0))
  | [ss, frac] =>
    match parseFixedNat 2 ss with
    | none => none
    | some sec =>
      match parseFixedNat 6 frac with
      | some us => some (sec, us)
      | none => (parseFixedNat 3 frac).map (fun ms => (sec, ms * 1000))
  | _ => none

/-- Modelled from the Python stdlib (not under src/):
`datetime.fromisoformat` on the naive format `YYYY-MM-DDTHH:MM:SS[.fff[fff]]`,
validating calendar ranges; raises `ValueError` (here `.error`) otherwise. -/
def datetime_fromisoformat (s : String) : Except String PyDatetime :=
  match pySplit 'T' s with
  | [date, time] =>
    (match pySplit '-' date, pySplit ':' time with
     | [ys, ms, ds], [hs, mins, secs] =>
       (match parseFixedNat 4 ys, parseFixedNat 2 ms, parseFixedNat 2 ds,
              parseFixedNat 2 hs, parseFixedNat 2 mins, parseSeconds secs with
        | some y, some mo, some da, some h, some mi, some (sec, us) =>
          if 1 ≤ y ∧ 1 ≤ mo ∧ mo ≤ 12 ∧ 1 ≤ da ∧ da ≤ daysInMonth y mo ∧
             h ≤ 23 ∧ mi ≤ 59 ∧ sec ≤ 59 ∧ us < 1000000 then
            .ok ⟨y, mo, da, h, mi, sec, us⟩
          else .error ("Invalid isoformat string: " ++ s)
        | _, _, _, _, _, _ => .error ("Invalid isoformat string: " ++ s))
     | _, _ => .error ("Invalid isoformat string: " ++ s))
  | _ => .error ("Invalid isoformat string: " ++ s)

/-- Mixed-radix key under which comparison of in-range datetimes is the
field-lexicographic comparison Python uses on naive datetimes. -/
def PyDatetime.toKey (d : PyDatetime) : Nat :=
  (((((d.year * 13 + d.month) * 32 + d.day) * 24 + d.hour) * 60 + d.minute) * 60
    + d.second) * 1000000 + d.microsecond

/-- Python `a < b` on naive datetimes. -/
def PyDatetime.lt (a b : PyDatetime) : Bool :=
  a.toKey < b.toKey

/-- Modelled from the spec: the `app.constants` module is imported by the
source but absent from src/. Username length bounds per spec section 4.1. -/
def MIN_USERNAME_LENGTH : Nat := 3

/-- Modelled from the spec: maximum username length (section 4.1). -/
def MAX_USERNAME_LENGTH : Nat := 50

/-- Modelled from the spec: minimum password length (section 4.1). -/
def MIN_PASSWORD_LENGTH : Nat := 8

/-- Modelled from the spec: maximum password length (section 4.1). -/
def MAX_PASSWORD_LENGTH : Nat := 100

/-- Modelled from the spec: characters the username pattern
`SITE_URL_PATTERN` admits are `[A-Za-z0-9_-]` (section 4.1). -/
def isSiteUrlChar (c : Char) : Bool :=
  c.isAlpha || c.isDigit || c = '_' || c = '-'

/-- Modelled from the spec: `re.match(SITE_URL_PATTERN, username)` succeeds
exactly when every character of the username is in `[A-Za-z0-9_-]` (and the
length bounds are checked separately before this). -/
def matchesSiteUrlPattern (username : String) : Bool :=
  username.data.all isSiteUrlChar

/-- Modelled from the spec: error message constant from the missing
`app.constants`; only its identity (distinctness) matters to the claims. -/
def ERROR_INVALID_USERNAME : String := "Invalid username"

/-- Modelled from the spec: username-taken error constant. -/
def ERROR_USERNAME_EXISTS : String := "Username already exists"

/-- Modelled from the spec: unknown-username error constant. -/
def ERROR_USERNAME_NOT_FOUND : String := "Username not found"

/-- Modelled from the spec: wrong-password error constant. -/
def ERROR_INVALID_PASSWORD : String := "Invalid password"

/-- Modelled from the spec: malformed-password error constant. -/
def ERROR_INVALID_PASSWORD_FORMAT : String := "Invalid password format"

/-- Modelled from the spec: expired-session error constant (the `Expired`
error of spec section 4.3). -/
def ERROR_SESSION_EXPIRED : String := "Session expired"

/-- Modelled from the spec: default tab name from the missing
`app.constants`; no claim depends on its value. -/
def DEFAULT_TAB_NAME : String := "Notes"

/-- Row of the `sites` table as the service sees it. -/
structure Site where
  id : String
  username : String
  password_hash : String
  is_active : Bool
deriving DecidableEq, Repr

/-- Row of the `tabs` table as inserted by `SupabaseClient.create_tab`. -/
structure Tab where
  site_id : String
  tab_name : String
  tab_order : Nat
  content : String
deriving DecidableEq, Repr

/-- Persistence operations the auth service can invoke on the supabase
client, recorded in call order as an effect trace. -/
inductive DBOp where
  | get_site_by_username (username : String)
  | get_site_by_id (site_id : String)
  | update_site_last_accessed (site_id : String)
  | create_site (username : String) (password_hash : String)
  | create_tab (site_id : String) (tab_name : String) (tab_order : Nat)
deriving DecidableEq, Repr

/-- Whether a persistence operation writes to the database. -/
def DBOp.isWrite : DBOp → Bool
  | .get_site_by_username _ => false
  | .get_site_by_id _ => false
  | _ => true

/-- Remote database and outcome oracles: table contents, the server-assigned
id for the next site insert, and per-call failure oracles (`some e` means the
underlying remote call raises with message `e`; `updateOk = false` means the
last-accessed update fails, which `update_site_last_accessed` itself
swallows). -/
structure World where
  sites : List Site
  tabs : List Tab
  freshSiteId : String
  siteInsertFail : Option String
  tabInsertFail : Option String
  getUsernameFail : Option String
  getIdFail : Option String
  updateOk : Bool
deriving Repr

/-- Opaque cryptographic and configuration inputs: the SHA-256 hex digest
function, the bcrypt core digest (password and salt to 31-character digest
text), and `config.SESSION_SECRET`. -/
structure Ctx where
  sha256hex : String → String
  bcryptDigest : String → String → String
  SESSION_SECRET : String

namespace SupabaseClient

/-- Embeds `SupabaseClient.get_site_by_username` (supabase_client.py
54-63): selects sites with equal username and `is_active = true`, returns the
first row or `None`; a remote failure is re-raised with the wrapped
message. -/
def get_site_by_username (w : World) (username : String) :
    Except String (Option Site) :=
  match w.getUsernameFail with
  | some e => .error ("Failed to get site: " ++ e)
  | none =>
    .ok ((w.sites.filter (fun s => s.username == username && s.is_active)).head?)

/-- Embeds `SupabaseClient.get_site_by_id` (supabase_client.py 65-74):
selects sites with equal id and `is_active = true`. -/
def get_site_by_id (w : World) (site_id : String) :
    Except String (Option Site) :=
  match w.getIdFail with
  | some e => .error ("Failed to get site by ID: " ++ e)
  | none =>
    .ok ((w.sites.filter (fun s => s.id == site_id && s.is_active)).head?)

/-- Embeds `SupabaseClient.update_site_last_accessed` (supabase_client.py
76-86): returns `True` on success; catches any failure itself, prints a
warning and returns `False` — it never raises. -/
def update_site_last_accessed (w : World) (_site_id : String) : Bool :=
  w.updateOk

/-- Embeds `SupabaseClient.create_site` (supabase_client.py 39-52): inserts
an active row with a server-assigned id and returns it; any failure is
raised with the wrapped message. -/
def create_site (w : World) (username password_hash : String) :
    Except String (Site × World) :=
  match w.siteInsertFail with
  | some e => .error ("Failed to create site: " ++ e)
  | none =>
    let site : Site := ⟨w.freshSiteId, username, password_hash, true⟩
    .ok (site, { w with sites := w.sites ++ [site] })

/-- Embeds `SupabaseClient.create_tab` (supabase_client.py 89-103): inserts
a row with the given site id, tab name, tab order and content `''`, and
returns it; any failure is raised with the wrapped message. -/
def create_tab (w : World) (site_id tab_name : String) (tab_order : Nat) :
    Except String (Tab × World) :=
  match w.tabInsertFail with
  | some e => .error ("Failed to create tab: " ++ e)
  | none =>
    let tab : Tab := ⟨site_id, tab_name, tab_order, ""⟩
    .ok (tab, { w with tabs := w.tabs ++ [tab] })

end SupabaseClient

namespace Bcrypt

/-- Modelled from the spec (section 4.2): the bcrypt library is not under
src/. A digest string is self-describing: its first 29 characters are the
settings text (algorithm marker, cost, salt) and the rest is the digest.
This extracts the embedded settings/salt portion. -/
def extract_salt (s : String) : String :=
  String.mk (s.data.take 29)

/-- Modelled from the spec: a well-formed bcrypt settings string starts with
the `$2b$` algorithm marker and is at least 29 characters long (as every
`bcrypt.gensalt()` output is); `hashpw`/`checkpw` raise on anything else. -/
def valid_salt (s : String) : Bool :=
  (s.data.take 4 == ['$', '2', 'b', '$']) && (29 ≤ s.length)

/-- Modelled from the spec: result of `bcrypt.hashpw` on well-formed
settings — the 29-character settings text followed by the core digest of the
password under those settings. -/
def hashpw_core (digest : String → String → String)
    (password settings : String) : String :=
  extract_salt settings ++ digest password (extract_salt settings)

/-- Modelled from the spec: `bcrypt.hashpw(password, settings)` recomputes
with the salt/cost embedded in `settings`, raising `ValueError` on a
malformed settings string. -/
def hashpw (digest : String → String → String)
    (password settings : String) : Except String String :=
  if valid_salt settings then .ok (hashpw_core digest password settings)
  else .error "Invalid salt"

/-- Modelled from the spec: `bcrypt.checkpw(password, hashed)` recomputes
`hashpw` using the settings embedded in `hashed` and compares; it raises on
a malformed `hashed`. -/
def checkpw (digest : String → String → String)
    (password hashed : String) : Except String Bool :=
  match hashpw digest password hashed with
  | .ok recomputed => .ok (recomputed == hashed)
  | .error e => .error e

end Bcrypt

namespace AuthService

/-- Embeds `AuthService.validate_username` (auth_service.py 28-43): length
check, pattern check, then availability via the persistence read. The read
can raise and the source does not catch it. Also returns the persistence
trace. -/
def validate_username (w : World) (username : String) :
    Except String (Bool × Option String) × List DBOp :=
  if username.length < MIN_USERNAME_LENGTH ∨ username.length > MAX_USERNAME_LENGTH then
    (.ok (false, some ERROR_INVALID_USERNAME), [])
  else if ¬ matchesSiteUrlPattern username then
    (.ok (false, some ERROR_INVALID_USERNAME), [])
  else
    match SupabaseClient.get_site_by_username w username with
    | .error e => (.error e, [.get_site_by_username username])
    | .ok (some _) =>
      (.ok (false, some ERROR_USERNAME_EXISTS), [.get_site_by_username username])
    | .ok none => (.ok (true, none), [.get_site_by_username username])

/-- Embeds `AuthService.validate_password` (auth_service.py 45-58): length
bounds only. -/
def validate_password (password : String) : Bool × Option String :=
  if password.length < MIN_PASSWORD_LENGTH ∨ password.length > MAX_PASSWORD_LENGTH then
    (false, some ERROR_INVALID_PASSWORD_FORMAT)
  else (true, none)

/-- Embeds `AuthService.hash_password` (auth_service.py 60-70): bcrypt hash
under a freshly generated salt; the salt (a `bcrypt.gensalt` output, always
well-formed) is passed explicitly in place of the randomness. -/
def hash_password (ctx : Ctx) (salt password : String) : String :=
  Bcrypt.hashpw_core ctx.bcryptDigest password salt

/-- Embeds `AuthService.verify_password` (auth_service.py 72-79):
`bcrypt.checkpw` inside `try/except` — any exception becomes `False`. -/
def verify_password (ctx : Ctx) (password hashed_password : String) : Bool :=
  match Bcrypt.checkpw ctx.bcryptDigest password hashed_password with
  | .ok b => b
  | .error _ => false

/-- Embeds `AuthService.create_site` (auth_service.py 81-105): validate
username then password, hash the password, insert the site, insert the
default tab; the two inserts sit in a `try/except` whose handler returns
`(False, str(e), None)`. Returns the result triple, the resulting world and
the persistence trace. -/
def create_site (ctx : Ctx) (w : World) (salt username password : String) :
    Except String ((Bool × Option String × Option Site) × World × List DBOp) :=
  match validate_username w username with
  | (.error e, _) => .error e
  | (.ok (false, username_error), tr) => .ok ((false, username_error, none), w, tr)
  | (.ok (true, _), tr) =>
    match validate_password password with
    | (false, password_error) => .ok ((false, password_error, none), w, tr)
    | (true, _) =>
      let password_hash := hash_password ctx salt password
      match SupabaseClient.create_site w username password_hash with
      | .error e =>
        .ok ((false, some e, none), w, tr ++ [.create_site username password_hash])
      | .ok (site, w1) =>
        match SupabaseClient.create_tab w1 site.id DEFAULT_TAB_NAME 0 with
        | .error e =>
          .ok ((false, some e, none), w1,
            tr ++ [.create_site username password_hash,
                   .create_tab site.id DEFAULT_TAB_NAME 0])
        | .ok (_, w2) =>
          .ok ((true, none, some site), w2,
            tr ++ [.create_site username password_hash,
                   .create_tab site.id DEFAULT_TAB_NAME 0])

/-- Embeds `AuthService.authenticate_site` (auth_service.py 107-121): look
up the active site by username, verify the password, then a best-effort
last-accessed bump whose boolean result is discarded. The lookup can raise
and the source does not catch it. -/
def authenticate_site (ctx : Ctx) (w : World) (username password : String) :
    Except String ((Bool × Option String × Option Site) × List DBOp) :=
  match SupabaseClient.get_site_by_username w username with
  | .error e => .error e
  | .ok none =>
    .ok ((false, some ERROR_USERNAME_NOT_FOUND, none), [.get_site_by_username username])
  | .ok (some site) =>
    if ¬ verify_password ctx password site.password_hash then
      .ok ((false, some ERROR_INVALID_PASSWORD, none), [.get_site_by_username username])
    else
      let _ := SupabaseClient.update_site_last_accessed w site.id
      .ok ((true, none, some site),
        [.get_site_by_username username, .update_site_last_accessed site.id])

/-- Signed-string construction shared by token creation and validation
(auth_service.py 143 and 167): the five fields joined with `:` and no
escaping. -/
def signature_data (session_id site_id username expires_at_str secret : String) :
    String :=
  session_id ++ ":" ++ site_id ++ ":" ++ username ++ ":" ++ expires_at_str ++
    ":" ++ secret

/-- Embeds `AuthService.create_session_token` (auth_service.py 129-149).
The random session id (64 hex characters from `secrets.token_bytes(32)`) and
the expiry instant `datetime.utcnow() + timedelta(hours=SESSION_EXPIRY_HOURS)`
are passed explicitly, standing for the randomness and the clock. The token
is the five fields joined with `.`. -/
def create_session_token (ctx : Ctx) (session_id : String)
    (expires_at_dt : PyDatetime) (site_id username : String) : String :=
  let expires_at := expires_at_dt.isoformat
  let signature :=
    ctx.sha256hex (signature_data session_id site_id username expires_at ctx.SESSION_SECRET)
  session_id ++ "." ++ site_id ++ "." ++ username ++ "." ++ expires_at ++ "." ++ signature

/-- Embeds `AuthService.validate_session_token` (auth_service.py 151-187):
split on `.` expecting five fields, parse the expiry, check expiration, then
the signature, then fetch the site, check the username, and bump
last-accessed; the whole body is in a `try/except` whose handler returns
`(False, "Token validation error: " + str(e), None)`. `now` stands for
`datetime.utcnow()`. Also returns the persistence trace. -/
def validate_session_token (ctx : Ctx) (w : World) (now : PyDatetime)
    (token : String) : (Bool × Option String × Option Site) × List DBOp :=
  match pySplit '.' token with
  | [session_id, site_id, username, expires_at_str, signature] =>
    (match datetime_fromisoformat expires_at_str with
     | .error e => ((false, some ("Token validation error: " ++ e), none), [])
     | .ok expires_at =>
       if PyDatetime.lt expires_at now then
         ((false, some ERROR_SESSION_EXPIRED, none), [])
       else
         if signature ≠
             ctx.sha256hex
               (signature_data session_id site_id username expires_at_str ctx.SESSION_SECRET) then
           ((false, some "Invalid token signature", none), [])
         else
           match SupabaseClient.get_site_by_id w site_id with
           | .error e =>
             ((false, some ("Token validation error: " ++ e), none),
              [.get_site_by_id site_id])
           | .ok none =>
             ((false, some "Site not found", none), [.get_site_by_id site_id])
           | .ok (some site) =>
             if site.username ≠ username then
               ((false, some "Token username mismatch", none), [.get_site_by_id site_id])
             else
               let _ := SupabaseClient.update_site_last_accessed w site_id
               ((true, none, some site),
                [.get_site_by_id site_id, .update_site_last_accessed site_id]))
  | _ => ((false, some "Invalid token format", none), [])

end AuthService

/-- Concrete context for witnesses: a stand-in hash function (only equality
of hash inputs matters to the code under proof), a stand-in bcrypt core, and
the default `SESSION_SECRET` from config.py. -/
def testCtx : Ctx :=
  ⟨fun s => toString s.length, fun p s => p ++ s,
   "dev-secret-key-change-in-production"⟩

/-- Well-formed bcrypt settings string of the shape `bcrypt.gensalt(12)`
produces: `$2b$` marker, cost, 22 salt characters — 29 characters. -/
def testSalt : String := "$2b$12$abcdefghijklmnopqrstuv"

/-- Empty database, next site insert gets id `site-1`, every remote call
succeeds. -/
def emptyWorld : World := ⟨[], [], "site-1", none, none, none, none, true⟩

/-- Database holding one active site `demo_user` with id `site-1`. -/
def demoWorld : World :=
  ⟨[⟨"site-1", "demo_user", "H", true⟩], [], "site-2", none, none, none, none, true⟩

/-- Active site with id `b` and username `bob`. -/
def bobSite : Site := ⟨"b", "bob", "H", true⟩

/-- Database holding only `bobSite`, every remote call succeeding. -/
def bobWorld : World := ⟨[bobSite], [], "site-2", none, none, none, none, true⟩

lemma data_extract_salt (s : String) :
    (Bcrypt.extract_salt s).data = s.data.take 29 := rfl

lemma extract_salt_append (s t : String) (h : s.length = 29) :
    Bcrypt.extract_salt (s ++ t) = s := by
  apply String.ext
  rw [data_extract_salt, String.data_append]
  exact List.take_left' h

lemma length_extract_salt (s : String) (h : 29 ≤ s.length) :
    (Bcrypt.extract_salt s).length = 29 := by
  have h' : 29 ≤ s.data.length := h
  show (s.data.take 29).length = 29
  rw [List.length_take]
  omega

lemma valid_salt_append (s t : String) (h : Bcrypt.valid_salt s = true) :
    Bcrypt.valid_salt (s ++ t) = true := by
  unfold Bcrypt.valid_salt at h ⊢
  rw [Bool.and_eq_true] at h ⊢
  obtain ⟨h4, h29⟩ := h
  have hlen : 29 ≤ s.data.length := of_decide_eq_true h29
  constructor
  · rw [String.data_append, List.take_append_eq_append_take]
    have h0 : 4 - s.data.length = 0 := by omega
    rw [h0, List.take_zero, List.append_nil]
    exact h4
  · apply decide_eq_true
    show 29 ≤ (s ++ t).data.length
    rw [String.data_append, List.length_append]
    omega

/-- C4: for every password, hashing it under any well-formed freshly
generated bcrypt salt and immediately verifying the password against the
resulting digest succeeds — `verify_password (p, hash_password p) = true`
for any salt the hasher generates. -/
theorem verify_password_of_hash_password (ctx : Ctx) (salt password : String)
    (h : Bcrypt.valid_salt salt = true) :
    AuthService.verify_password ctx password
      (AuthService.hash_password ctx salt password) = true := by
  have h29 : 29 ≤ salt.length := by
    unfold Bcrypt.valid_salt at h
    rw [Bool.and_eq_true] at h
    exact of_decide_eq_true h.2
  have hes : (Bcrypt.extract_salt salt).length = 29 := length_extract_salt salt h29
  have hvs : Bcrypt.valid_salt (Bcrypt.extract_salt salt) = true := by
    unfold Bcrypt.valid_salt at h ⊢
    rw [Bool.and_eq_true] at h ⊢
    refine ⟨?_, decide_eq_true (by omega : 29 ≤ (Bcrypt.extract_salt salt).length)⟩
    rw [data_extract_salt, List.take_take]
    exact h.1
  have hv2 : Bcrypt.valid_salt
      (Bcrypt.extract_salt salt ++ ctx.bcryptDigest password (Bcrypt.extract_salt salt)) = true :=
    valid_salt_append _ _ hvs
  have he : Bcrypt.extract_salt
      (Bcrypt.extract_salt salt ++ ctx.bcryptDigest password (Bcrypt.extract_salt salt)) =
      Bcrypt.extract_salt salt := extract_salt_append _ _ hes
  show AuthService.verify_password ctx password
      (Bcrypt.extract_salt salt ++ ctx.bcryptDigest password (Bcrypt.extract_salt salt)) = true
  unfold AuthService.verify_password Bcrypt.checkpw Bcrypt.hashpw
  rw [if_pos hv2]
  show Bcrypt.hashpw_core ctx.bcryptDigest password
      (Bcrypt.extract_salt salt ++ ctx.bcryptDigest password (Bcrypt.extract_salt salt)) ==
      (Bcrypt.extract_salt salt ++ ctx.bcryptDigest password (Bcrypt.extract_salt salt))
  unfold Bcrypt.hashpw_core
  rw [he]
  exact beq_self_eq_true _

/-- Witness for C4 at the password of the spec's example and a concrete
`gensalt`-shaped salt. -/
theorem verify_password_of_hash_password_witness :
    Bcrypt.valid_salt testSalt = true ∧
    AuthService.verify_password testCtx "password123"
      (AuthService.hash_password testCtx testSalt "password123") = true :=
  ⟨by decide, verify_password_of_hash_password testCtx testSalt "password123" (by decide)⟩

/-- C8: `verify_password` is total — it equals the boolean
`valid-settings && recomputed-digest-matches`, so it yields a boolean on
every password/digest pair, and on a malformed digest (where bcrypt itself
raises) the `except` handler makes it return false rather than propagate. -/
theorem verify_password_total_eq (ctx : Ctx) (password hashed_password : String) :
    (AuthService.verify_password ctx password hashed_password =
      (Bcrypt.valid_salt hashed_password &&
        (Bcrypt.hashpw_core ctx.bcryptDigest password hashed_password == hashed_password)))
    ∧ (Bcrypt.valid_salt hashed_password = false →
        AuthService.verify_password ctx password hashed_password = false) := by
  cases hv : Bcrypt.valid_salt hashed_password <;>
    simp [AuthService.verify_password, Bcrypt.checkpw, Bcrypt.hashpw, hv]

/-- Witness for C8 on a concrete malformed digest. -/
theorem verify_password_total_eq_witness :
    Bcrypt.valid_salt "not-a-bcrypt-digest" = false ∧
    AuthService.verify_password testCtx "password123" "not-a-bcrypt-digest" = false :=
  ⟨by decide,
   (verify_password_total_eq testCtx "password123" "not-a-bcrypt-digest").2 (by decide)⟩

/-- C9: the `:`-joined signed string is not injective in its fields — two
distinct (site id, username) pairs yield the identical signed string, hence
the identical signature under any hash function. -/
theorem signature_data_collision :
    AuthService.signature_data "s" "a:b" "c" "2026-01-01T00:00:00" "k" =
      AuthService.signature_data "s" "a" "b:c" "2026-01-01T00:00:00" "k"
    ∧ ("a:b", "c") ≠ (("a", "b:c") : String × String)
    ∧ ∀ ctx : Ctx,
        ctx.sha256hex (AuthService.signature_data "s" "a:b" "c" "2026-01-01T00:00:00" "k") =
          ctx.sha256hex (AuthService.signature_data "s" "a" "b:c" "2026-01-01T00:00:00" "k") :=
  ⟨rfl, by decide, fun _ => rfl⟩

/-- C1 (failing input): a token issued by `create_session_token` at an
instant with nonzero microseconds — which `datetime.utcnow()` yields with
overwhelming probability — is rejected by `validate_session_token` as
`Invalid token format`, because the ISO-8601 expiry field contains a `.` and
the `.`-split of the token therefore has six fields, not five; the site
exists and is active, the clock is before expiry, and the signature is the
one the issuer computed. -/
theorem create_then_validate_fresh_token_rejected :
    AuthService.validate_session_token testCtx demoWorld ⟨2026, 10, 12, 11, 0, 0, 0⟩
      (AuthService.create_session_token testCtx
        "3f2a9c61e8b4d705a1c6e9f2b8d4a7c03e5f8a1b6d9c2e74f0a3b5c8d1e6f492"
        ⟨2026, 10, 12, 19, 0, 0, 123456⟩ "site-1" "demo_user")
      = ((false, some "Invalid token format", none), []) := by
  set_option maxRecDepth 4000 in decide

lemma validate_session_token_cases (ctx : Ctx) (w : World) (now : PyDatetime)
    (token : String) :
    (∃ m, AuthService.validate_session_token ctx w now token =
       ((false, some m, none), []))
    ∨ (∃ m site_id, AuthService.validate_session_token ctx w now token =
       ((false, some m, none), [DBOp.get_site_by_id site_id]))
    ∨ (∃ site site_id, AuthService.validate_session_token ctx w now token =
       ((true, none, some site),
        [DBOp.get_site_by_id site_id, DBOp.update_site_last_accessed site_id])) := by
  unfold AuthService.validate_session_token
  repeat' split
  all_goals
    first
      | exact Or.inl ⟨_, rfl⟩
      | exact Or.inr (Or.inl ⟨_, _, rfl⟩)
      | exact Or.inr (Or.inr ⟨_, _, rfl⟩)

/-- C2 (counterexample): on a well-signed unexpired token for an existing
active site, `validate_session_token` itself performs persistence
operations — a site fetch and a last-accessed update — so its persistence
trace is not empty, contradicting the claim that it never invokes any
persistence operation. -/
theorem validate_session_token_invokes_persistence :
    (AuthService.validate_session_token testCtx bobWorld ⟨2025, 12, 31, 0, 0, 0, 0⟩
       (AuthService.create_session_token testCtx "a1b2" ⟨2026, 1, 1, 0, 0, 0, 0⟩ "b" "bob")).2
      = [DBOp.get_site_by_id "b", DBOp.update_site_last_accessed "b"]
    ∧ (AuthService.validate_session_token testCtx bobWorld ⟨2025, 12, 31, 0, 0, 0, 0⟩
       (AuthService.create_session_token testCtx "a1b2" ⟨2026, 1, 1, 0, 0, 0, 0⟩ "b" "bob")).2
      ≠ ([] : List DBOp) :=
  ⟨by set_option maxRecDepth 8000 in decide,
   by set_option maxRecDepth 8000 in decide⟩

/-- C2 (amended): `validate_session_token` does invoke persistence itself.
Every run either performs no persistence operation and fails (format,
expiry, signature errors), or performs exactly one site fetch and fails
(lookup failure, missing site, username mismatch), or performs a site fetch
followed by a last-accessed update and succeeds. -/
theorem validate_session_token_persistence_profile (ctx : Ctx) (w : World)
    (now : PyDatetime) (token : String) :
    ((AuthService.validate_session_token ctx w now token).2 = [] ∧
       (AuthService.validate_session_token ctx w now token).1.1 = false)
    ∨ (∃ site_id,
        ((AuthService.validate_session_token ctx w now token).2 =
            [DBOp.get_site_by_id site_id] ∧
          (AuthService.validate_session_token ctx w now token).1.1 = false)
        ∨ ((AuthService.validate_session_token ctx w now token).2 =
            [DBOp.get_site_by_id site_id, DBOp.update_site_last_accessed site_id] ∧
          (AuthService.validate_session_token ctx w now token).1.1 = true)) := by
  rcases validate_session_token_cases ctx w now token with
    ⟨m, h⟩ | ⟨m, sid, h⟩ | ⟨site, sid, h⟩
  · exact Or.inl ⟨by rw [h], by rw [h]⟩
  · exact Or.inr ⟨sid, Or.inl ⟨by rw [h], by rw [h]⟩⟩
  · exact Or.inr ⟨sid, Or.inr ⟨by rw [h], by rw [h]⟩⟩

/-- C10: `validate_session_token` is total over arbitrary token strings and
database/outcome oracles: it always returns an explicit (ok, error, claims)
triple — on success the error is `None` and the claims are present, on any
failure (bad split, unparsable timestamp, raising site lookup, ...) the
error message is present and the claims are `None`. -/
theorem validate_session_token_returns_explicit_triple (ctx : Ctx) (w : World)
    (now : PyDatetime) (token : String) :
    ((AuthService.validate_session_token ctx w now token).1.1 = true ∧
      (AuthService.validate_session_token ctx w now token).1.2.1 = none ∧
      (∃ site, (AuthService.validate_session_token ctx w now token).1.2.2 = some site))
    ∨ ((AuthService.validate_session_token ctx w now token).1.1 = false ∧
      (∃ msg, (AuthService.validate_session_token ctx w now token).1.2.1 = some msg) ∧
      (AuthService.validate_session_token ctx w now token).1.2.2 = none) := by
  rcases validate_session_token_cases ctx w now token with
    ⟨m, h⟩ | ⟨m, sid, h⟩ | ⟨site, sid, h⟩
  · exact Or.inr ⟨by rw [h], ⟨m, by rw [h]⟩, by rw [h]⟩
  · exact Or.inr ⟨by rw [h], ⟨m, by rw [h]⟩, by rw [h]⟩
  · exact Or.inl ⟨by rw [h], by rw [h], ⟨site, by rw [h]⟩⟩

/-- C3: a token whose (parseable) embedded expiry timestamp is earlier than
the validation clock fails with the `Expired` error and an empty
persistence trace — in particular never with the `BadSignature` error,
whatever its signature field holds. -/
theorem validate_session_token_expired_not_bad_signature
    (ctx : Ctx) (w : World) (now : PyDatetime) (token : String)
    (session_id site_id username expires_at_str signature : String)
    (expires_at : PyDatetime)
    (hsplit : pySplit '.' token = [session_id, site_id, username, expires_at_str, signature])
    (hparse : datetime_fromisoformat expires_at_str = .ok expires_at)
    (hexp : PyDatetime.lt expires_at now = true) :
    AuthService.validate_session_token ctx w now token =
      ((false, some ERROR_SESSION_EXPIRED, none), []) := by
  unfold AuthService.validate_session_token
  simp only [hsplit, hparse, hexp, if_true]

/-- Witness for C3 on a concrete token whose signature field is garbage. -/
theorem validate_session_token_expired_not_bad_signature_witness :
    pySplit '.' "a1b2.b.bob.2020-01-01T00:00:00.sig" =
      ["a1b2", "b", "bob", "2020-01-01T00:00:00", "sig"]
    ∧ datetime_fromisoformat "2020-01-01T00:00:00" = .ok ⟨2020, 1, 1, 0, 0, 0, 0⟩
    ∧ PyDatetime.lt ⟨2020, 1, 1, 0, 0, 0, 0⟩ ⟨2026, 1, 1, 0, 0, 0, 0⟩ = true
    ∧ AuthService.validate_session_token testCtx bobWorld ⟨2026, 1, 1, 0, 0, 0, 0⟩
        "a1b2.b.bob.2020-01-01T00:00:00.sig" =
      ((false, some ERROR_SESSION_EXPIRED, none), []) :=
  ⟨by decide, rfl, by decide,
   validate_session_token_expired_not_bad_signature testCtx bobWorld
     ⟨2026, 1, 1, 0, 0, 0, 0⟩ "a1b2.b.bob.2020-01-01T00:00:00.sig"
     "a1b2" "b" "bob" "2020-01-01T00:00:00" "sig" ⟨2020, 1, 1, 0, 0, 0, 0⟩
     (by decide) rfl (by decide)⟩

/-- C7: when the persistence read succeeds, `validate_username` accepts
exactly the usernames of length in [3, 50], with every character in
`[A-Za-z0-9_-]`, for which no active site with that username exists; and
every persistence operation it performs is a read, never a write. -/
theorem validate_username_spec (w : World) (username : String)
    (hok : w.getUsernameFail = none) :
    ((AuthService.validate_username w username).1 = .ok (true, none) ↔
      (MIN_USERNAME_LENGTH ≤ username.length ∧ username.length ≤ MAX_USERNAME_LENGTH ∧
       matchesSiteUrlPattern username = true ∧
       (w.sites.filter (fun s => s.username == username && s.is_active)).head? = none))
    ∧ ∀ op ∈ (AuthService.validate_username w username).2, op.isWrite = false := by
  unfold AuthService.validate_username SupabaseClient.get_site_by_username
  rw [hok]
  constructor
  · split
    next hlen =>
      constructor
      · intro h
        exact absurd h (by simp)
      · rintro ⟨h1, h2, -, -⟩
        simp only [MIN_USERNAME_LENGTH, MAX_USERNAME_LENGTH] at hlen h1 h2
        omega
    next hlen =>
      split
      next hpat =>
        constructor
        · intro h
          exact absurd h (by simp)
        · rintro ⟨-, -, hp, -⟩
          exact absurd hp hpat
      next hpat =>
        cases hh : (w.sites.filter (fun s => s.username == username && s.is_active)).head? with
        | none =>
          constructor
          · intro _
            refine ⟨?_, ?_, not_not.mp hpat, rfl⟩ <;>
              (simp only [MIN_USERNAME_LENGTH, MAX_USERNAME_LENGTH] at hlen ⊢; omega)
          · intro _
            rfl
        | some site =>
          constructor
          · intro h
            exact absurd h (by simp)
          · rintro ⟨-, -, -, hnone⟩
            cases hnone
  · intro op hop
    split at hop
    · simp at hop
    · split at hop
      · simp at hop
      · cases hh : (w.sites.filter (fun s => s.username == username && s.is_active)).head? <;>
          rw [hh] at hop <;> simp at hop <;> simp [hop, DBOp.isWrite]

/-- Witness for C7: `abc` is accepted against an empty database. -/
theorem validate_username_spec_witness :
    emptyWorld.getUsernameFail = none ∧
    (AuthService.validate_username emptyWorld "abc").1 = .ok (true, none) :=
  ⟨rfl, ((validate_username_spec emptyWorld "abc" rfl).1).mpr (by decide)⟩

/-- C5: when the username lookup succeeds, `authenticate_site` fails with
`UsernameNotFound` when no active site carries the username, fails with
`InvalidPassword` when the password does not verify against the stored
digest, succeeds returning the site otherwise — and its result does not
depend on whether the best-effort last-accessed update succeeds or fails. -/
theorem authenticate_site_spec (ctx : Ctx) (w : World) (username password : String)
    (hok : w.getUsernameFail = none) :
    (((w.sites.filter (fun s => s.username == username && s.is_active)).head? = none →
       AuthService.authenticate_site ctx w username password =
         .ok ((false, some ERROR_USERNAME_NOT_FOUND, none), [.get_site_by_username username]))
     ∧ (∀ site,
         (w.sites.filter (fun s => s.username == username && s.is_active)).head? = some site →
         AuthService.verify_password ctx password site.password_hash = false →
         AuthService.authenticate_site ctx w username password =
           .ok ((false, some ERROR_INVALID_PASSWORD, none), [.get_site_by_username username]))
     ∧ (∀ site,
         (w.sites.filter (fun s => s.username == username && s.is_active)).head? = some site →
         AuthService.verify_password ctx password site.password_hash = true →
         AuthService.authenticate_site ctx w username password =
           .ok ((true, none, some site),
                [.get_site_by_username username, .update_site_last_accessed site.id]))
     ∧ AuthService.authenticate_site ctx { w with updateOk := false } username password =
         AuthService.authenticate_site ctx { w with updateOk := true } username password) := by
  refine ⟨?_, ?_, ?_, ?_⟩
  · intro hnone
    unfold AuthService.authenticate_site SupabaseClient.get_site_by_username
    rw [hok, hnone]
  · intro site hsome hv
    unfold AuthService.authenticate_site SupabaseClient.get_site_by_username
    rw [hok, hsome]
    simp [hv]
  · intro site hsome hv
    unfold AuthService.authenticate_site SupabaseClient.get_site_by_username
    rw [hok, hsome]
    simp [hv]
  · unfold AuthService.authenticate_site SupabaseClient.get_site_by_username
    rfl

/-- Witness for C5: `bob` exists but the password digest `H` does not
verify, so authentication fails with the invalid-password error. -/
theorem authenticate_site_spec_witness :
    bobWorld.getUsernameFail = none ∧
    AuthService.authenticate_site testCtx bobWorld "bob" "password123" =
      .ok ((false, some ERROR_INVALID_PASSWORD, none), [.get_site_by_username "bob"]) :=
  ⟨rfl, (authenticate_site_spec testCtx bobWorld "bob" "password123" rfl).2.1
          bobSite (by decide) (by decide)⟩

/-- C6: creating a site with a valid available username and a valid
password succeeds, inserts the new active site, and creates exactly one
default tab for the new site — with empty content and tab order 0. -/
theorem create_site_creates_one_default_tab (ctx : Ctx) (w : World)
    (salt username password : String)
    (hgu : w.getUsernameFail = none)
    (hsi : w.siteInsertFail = none)
    (hti : w.tabInsertFail = none)
    (hulen : MIN_USERNAME_LENGTH ≤ username.length ∧ username.length ≤ MAX_USERNAME_LENGTH)
    (hpat : matchesSiteUrlPattern username = true)
    (hfree : (w.sites.filter (fun s => s.username == username && s.is_active)).head? = none)
    (hplen : MIN_PASSWORD_LENGTH ≤ password.length ∧ password.length ≤ MAX_PASSWORD_LENGTH)
    (hfresh : ∀ t ∈ w.tabs, t.site_id ≠ w.freshSiteId) :
    AuthService.create_site ctx w salt username password =
      .ok ((true, none,
            some ⟨w.freshSiteId, username, AuthService.hash_password ctx salt password, true⟩),
           { w with
               sites := w.sites ++ [⟨w.freshSiteId, username,
                 AuthService.hash_password ctx salt password, true⟩],
               tabs := w.tabs ++ [⟨w.freshSiteId, DEFAULT_TAB_NAME, 0, ""⟩] },
           [.get_site_by_username username,
            .create_site username (AuthService.hash_password ctx salt password),
            .create_tab w.freshSiteId DEFAULT_TAB_NAME 0])
    ∧ (w.tabs ++ [(⟨w.freshSiteId, DEFAULT_TAB_NAME, 0, ""⟩ : Tab)]).filter
        (fun t => t.site_id == w.freshSiteId) =
      [(⟨w.freshSiteId, DEFAULT_TAB_NAME, 0, ""⟩ : Tab)] := by
  have hul : ¬(username.length < MIN_USERNAME_LENGTH ∨ username.length > MAX_USERNAME_LENGTH) := by
    simp only [MIN_USERNAME_LENGTH, MAX_USERNAME_LENGTH] at hulen ⊢
    omega
  have hpl : ¬(password.length < MIN_PASSWORD_LENGTH ∨ password.length > MAX_PASSWORD_LENGTH) := by
    simp only [MIN_PASSWORD_LENGTH, MAX_PASSWORD_LENGTH] at hplen ⊢
    omega
  constructor
  · unfold AuthService.create_site AuthService.validate_username
      SupabaseClient.get_site_by_username AuthService.validate_password
      SupabaseClient.create_site SupabaseClient.create_tab
    rw [hgu, hfree, if_neg hul, if_neg (not_not_intro hpat), if_neg hpl, hsi]
    dsimp only
    rw [hti]
    rfl
  · rw [List.filter_append]
    have hnil : w.tabs.filter (fun t => t.site_id == w.freshSiteId) = [] := by
      rw [List.filter_eq_nil_iff]
      intro t ht
      simpa using hfresh t ht
    rw [hnil]
    simp

/-- Witness for C6 at the spec's example credentials against an empty
database. -/
theorem create_site_creates_one_default_tab_witness :
    AuthService.create_site testCtx emptyWorld testSalt "demo_user" "password123" =
      .ok ((true, none,
            some ⟨emptyWorld.freshSiteId, "demo_user",
              AuthService.hash_password testCtx testSalt "password123", true⟩),
           { emptyWorld with
               sites := emptyWorld.sites ++ [⟨emptyWorld.freshSiteId, "demo_user",
                 AuthService.hash_password testCtx testSalt "password123", true⟩],
               tabs := emptyWorld.tabs ++ [⟨emptyWorld.freshSiteId, DEFAULT_TAB_NAME, 0, ""⟩] },
           [.get_site_by_username "demo_user",
            .create_site "demo_user" (AuthService.hash_password testCtx testSalt "password123"),
            .create_tab emptyWorld.freshSiteId DEFAULT_TAB_NAME 0])
    ∧ (emptyWorld.tabs ++ [(⟨emptyWorld.freshSiteId, DEFAULT_TAB_NAME, 0, ""⟩ : Tab)]).filter
        (fun t => t.site_id == emptyWorld.freshSiteId) =
      [(⟨emptyWorld.freshSiteId, DEFAULT_TAB_NAME, 0, ""⟩ : Tab)] :=
  create_site_creates_one_default_tab testCtx emptyWorld testSalt "demo_user" "password123"
    rfl rfl rfl (by decide) (by decide) rfl (by decide) (by simp [emptyWorld])
